import Mathlib

/-!
Shallow embedding of the Hack4Gaza backend: `src/main.py` together with
the collaborator wrappers `src/services/chroma_service.py` and
`src/services/llm_service.py`.

Modelling conventions:
* Python dicts keyed by strings (`queries_db`, `ConnectionManager.active_connections`)
  become association lists `List (String × α)` with `dictGet` / `dictReplace` /
  `dictRemove` / `dictInsert` mirroring `d.get(k)`, in-place update, `del d[k]`
  and `d[k] = v`.
* Websocket connection handles are opaque naturals; a Python `set` of
  websockets is a duplicate-free `List Nat` built by add-if-absent.
* Calls into external collaborators (the ChromaDB `collection.query`, the
  Groq chat completion, each `psycopg2` insert, `uuid.uuid4()`,
  `datetime.utcnow()`, and the success of each `websocket.send_json`) are
  passed in as explicit outcome arguments; the repository code around them
  (its `try/except` blocks included) is translated faithfully.
* Python floats (similarity scores) are carried opaquely as `Int`; no code
  path under study computes with them.
-/

/-- `ExpertResponse` pydantic model (main.py). -/
structure ExpertResponse where
  id : String
  name : String
  expertise : String
  description : String
  similarity_score : Int
  deriving DecidableEq, Repr

/-- One element of `UserQuery.expert_responses`: the dict
`{expert_id, expert_name, response, timestamp}` built in `submit_expert_response`. -/
structure RespObj where
  expert_id : String
  expert_name : String
  response : String
  timestamp : String
  deriving DecidableEq, Repr

/-- `UserQuery` pydantic model (main.py). -/
structure UserQuery where
  id : String
  question : String
  assigned_experts : List ExpertResponse
  llm_answer : String
  expert_responses : List RespObj
  deriving DecidableEq, Repr

/-- `SubmitExpertResponseRequest` pydantic model (main.py). -/
structure SubmitExpertResponseRequest where
  expert_id : String
  expert_name : String
  response : String
  deriving DecidableEq, Repr

/-- The raw dict returned by the `process_query` handler:
`{"experts": ..., "llm_answer": ..., "query_id": ...}` (main.py line 160). -/
structure RawQueryResult where
  experts : List ExpertResponse
  llm_answer : String
  query_id : String
  deriving DecidableEq, Repr

/-- `fastapi.HTTPException`: a status code plus a detail string. -/
structure HTTPError where
  status_code : Nat
  detail : String
  deriving DecidableEq, Repr

/-- A row of the Postgres `queries` table (the durable mirror of a query). -/
structure PgQueryRow where
  id : String
  question : String
  llm_answer : String
  assigned_experts : List ExpertResponse
  deriving DecidableEq, Repr

/-- A row of the Postgres `answers` table (the durable mirror of an expert response). -/
structure PgAnswerRow where
  query_id : String
  expert_id : String
  expert_name : String
  response : String
  timestamp : String
  deriving DecidableEq, Repr

/-- `ConnectionManager.active_connections`: query id → set of live websockets. -/
abbrev Registry := List (String × List Nat)

/-- The whole process state: the in-memory stores of main.py plus the two
Postgres tables standing for the Durable Store. -/
structure SysState where
  queries_db : List (String × UserQuery)
  registry : Registry
  pg_queries : List PgQueryRow
  pg_answers : List PgAnswerRow
  deriving DecidableEq, Repr

/-- Python `d.get(k)` on a string-keyed dict. -/
def dictGet {α : Type} (db : List (String × α)) (k : String) : Option α :=
  match db with
  | [] => none
  | p :: rest => if p.1 = k then some p.2 else dictGet rest k

/-- Overwrite the value stored under an existing key (in-place mutation of
`d[k]`); keys not present are untouched. -/
def dictReplace {α : Type} (db : List (String × α)) (k : String) (v : α) :
    List (String × α) :=
  match db with
  | [] => []
  | p :: rest => (if p.1 = k then (k, v) else p) :: dictReplace rest k v

/-- Python `del d[k]`. -/
def dictRemove {α : Type} (db : List (String × α)) (k : String) :
    List (String × α) :=
  match db with
  | [] => []
  | p :: rest => if p.1 = k then dictRemove rest k else p :: dictRemove rest k

/-- Python `d[k] = v`: replace when the key exists, append otherwise. -/
def dictInsert {α : Type} (db : List (String × α)) (k : String) (v : α) :
    List (String × α) :=
  match dictGet db k with
  | some _ => dictReplace db k v
  | none => db ++ [(k, v)]

namespace ConnectionManager

/-- `ConnectionManager.connect`: create the id entry if missing, then add the
websocket to its set (`set.add`: no duplicate insertion). -/
def connect (reg : Registry) (query_id : String) (ws : Nat) : Registry :=
  match dictGet reg query_id with
  | none => reg ++ [(query_id, [ws])]
  | some s => dictReplace reg query_id (if ws ∈ s then s else s ++ [ws])

/-- `ConnectionManager.disconnect`: `discard` the websocket; if the set became
empty, delete the id entry entirely. -/
def disconnect (reg : Registry) (query_id : String) (ws : Nat) : Registry :=
  match dictGet reg query_id with
  | none => reg
  | some s =>
    let s' := s.filter (fun x => x != ws)
    if s' = [] then dictRemove reg query_id else dictReplace reg query_id s'

/-- The `for connection in list(...)` loop body of `ConnectionManager.broadcast`:
walk a snapshot of the subscriber set; a successful `send_json` (per `alive`)
delivers the message, a failed one disconnects that subscriber. Returns the
final registry and the list of connections that received the message. -/
def broadcastLoop (reg : Registry) (query_id : String) (alive : Nat → Bool) :
    List Nat → Registry × List Nat
  | [] => (reg, [])
  | c :: cs =>
    if alive c then
      let r := broadcastLoop reg query_id alive cs
      (r.1, c :: r.2)
    else
      broadcastLoop (disconnect reg query_id c) query_id alive cs

/-- `ConnectionManager.broadcast`: nothing happens when the id has no entry;
otherwise loop over a snapshot of its subscriber set. Exceptions from sends
are caught inside the loop, so the call itself always returns normally. -/
def broadcast (reg : Registry) (query_id : String) (alive : Nat → Bool) :
    Registry × List Nat :=
  match dictGet reg query_id with
  | none => (reg, [])
  | some s => broadcastLoop reg query_id alive s

end ConnectionManager

/-- Current subscriber set of a query id (empty when the id has no entry). -/
def subscribersOf (reg : Registry) (query_id : String) : List Nat :=
  (dictGet reg query_id).getD []

namespace ChromaService

/-- `ChromaService.search_similar_experts`: the ChromaDB query and the
result-shaping loop sit inside a `try/except` that swallows every error and
returns the empty list. The collaborator outcome (already shaped, since the
shaping is pure) is the argument. -/
def search_similar_experts (outcome : Except Unit (List ExpertResponse)) :
    List ExpertResponse :=
  match outcome with
  | .ok experts => experts
  | .error _ => []

end ChromaService

namespace LLMService

/-- `LLMService.get_answer`: on success returns the stripped completion text;
every exception (API failure, missing client, `None` content) is caught and
the function falls off the end, returning Python `None`. -/
def get_answer (outcome : Except Unit String) : Option String :=
  match outcome with
  | .ok content => some content.trim
  | .error _ => none

end LLMService

/-- `str(HTTPException)` as Starlette renders it: `"{status_code}: {detail}"`. -/
def strOfHTTPError (e : HTTPError) : String :=
  toString e.status_code ++ ": " ++ e.detail

/-- The outer `except Exception as e` of `process_query` re-raises every
exception (the 404, the Postgres 500 and the pydantic validation error
included) as a 500 with a wrapped detail string. -/
def wrapOuter (msg : String) : HTTPError :=
  ⟨500, "Error processing query: " ++ msg⟩

/-- `str(e)` of the pydantic `ValidationError` raised when `UserQuery` is
constructed with `llm_answer=None` (the model field requires `str`). -/
def pydanticNoneMsg : String :=
  "1 validation error for UserQuery: llm_answer none is not an allowed value"

/-- `process_query` (main.py): rank experts, 404 when the list is empty, get
the LLM answer, build and insert the `UserQuery`, mirror it to Postgres, and
return the raw response dict; every exception raised on the way is converted
to a 500 by the handler-wide `except Exception`. -/
def processQuery (st : SysState) (query : String)
    (chroma : Except Unit (List ExpertResponse))
    (llmCall : Except Unit String)
    (freshId : String) (db : Except String Unit) :
    SysState × Except HTTPError RawQueryResult :=
  let top_experts := ChromaService.search_similar_experts chroma
  if top_experts = [] then
    (st, .error (wrapOuter (strOfHTTPError ⟨404, "No experts found in database"⟩)))
  else
    match LLMService.get_answer llmCall with
    | none => (st, .error (wrapOuter pydanticNoneMsg))
    | some llm_answer =>
      let q : UserQuery :=
        ⟨freshId, query, top_experts, llm_answer, []⟩
      let st1 : SysState :=
        { st with queries_db := dictInsert st.queries_db freshId q }
      match db with
      | .error m =>
        (st1, .error (wrapOuter (strOfHTTPError ⟨500, "Postgres error: " ++ m⟩)))
      | .ok _ =>
        let row : PgQueryRow := ⟨freshId, query, llm_answer, top_experts⟩
        ({ st1 with pg_queries := st1.pg_queries ++ [row] },
         .ok ⟨top_experts, llm_answer, freshId⟩)

/-- `get_query` (main.py): snapshot lookup, 404 when absent. -/
def getQuery (st : SysState) (query_id : String) : Except HTTPError UserQuery :=
  match dictGet st.queries_db query_id with
  | none => .error ⟨404, "Query not found"⟩
  | some q => .ok q

/-- Result of one `submit_expert_response` call: the new state, the HTTP
outcome, whether `manager.broadcast` was reached, and the connections the
broadcast delivered to. -/
structure SubmitResult where
  state : SysState
  http : Except HTTPError String
  broadcastInvoked : Bool
  delivered : List Nat
  deriving Repr

/-- The response dict appended by `submit_expert_response`. -/
def mkRespObj (req : SubmitExpertResponseRequest) (now : String) : RespObj :=
  ⟨req.expert_id, req.expert_name, req.response, now⟩

/-- `submit_expert_response` (main.py): 404 on unknown id; append the response
dict to the query in place; mirror to Postgres — a mirror failure raises a 500
there and then, so the broadcast below it is only reached on mirror success. -/
def submitExpertResponse (st : SysState) (query_id : String)
    (req : SubmitExpertResponseRequest) (now : String)
    (db : Except String Unit) (alive : Nat → Bool) : SubmitResult :=
  match dictGet st.queries_db query_id with
  | none => ⟨st, .error ⟨404, "Query not found"⟩, false, []⟩
  | some query =>
    let response_obj := mkRespObj req now
    let db1 := dictReplace st.queries_db query_id
      { query with expert_responses := query.expert_responses ++ [response_obj] }
    match db with
    | .error m =>
      ⟨{ st with queries_db := db1 }, .error ⟨500, "Postgres error: " ++ m⟩,
       false, []⟩
    | .ok _ =>
      let row : PgAnswerRow :=
        ⟨query_id, req.expert_id, req.expert_name, req.response, now⟩
      let st1 : SysState :=
        { st with queries_db := db1, pg_answers := st.pg_answers ++ [row] }
      let r := ConnectionManager.broadcast st1.registry query_id alive
      ⟨{ st1 with registry := r.1 }, .ok "Expert response submitted.", true, r.2⟩

/-- `clear_all_queries` (main.py): `queries_db.clear()` and nothing else. -/
def clearAllQueries (st : SysState) : SysState × String :=
  ({ st with queries_db := [] }, "All queries and answers deleted successfully.")

/-- Sequential `submit_expert_response` calls on one query id, each with its
own request and captured timestamp. -/
def submitMany (st : SysState) (query_id : String)
    (calls : List (SubmitExpertResponseRequest × String))
    (db : Except String Unit) (alive : Nat → Bool) : SysState :=
  match calls with
  | [] => st
  | (req, now) :: rest =>
    submitMany (submitExpertResponse st query_id req now db alive).state
      query_id rest db alive

/-- Minimal JSON values, for the serialized HTTP responses. -/
inductive JVal where
  | str (s : String)
  | num (n : Int)
  | arr (xs : List JVal)
  | obj (fields : List (String × JVal))

/-- Top-level keys of a JSON object. -/
def objKeys : JVal → List String
  | .obj fields => fields.map Prod.fst
  | _ => []

/-- JSON form of one `ExpertResponse`. -/
def serializeExpert (e : ExpertResponse) : JVal :=
  .obj [("id", .str e.id), ("name", .str e.name),
        ("expertise", .str e.expertise), ("description", .str e.description),
        ("similarity_score", .num e.similarity_score)]

/-- The dict the `process_query` handler returns, as JSON: it does carry
`query_id`. -/
def rawHandlerJson (r : RawQueryResult) : JVal :=
  .obj [("experts", .arr (r.experts.map serializeExpert)),
        ("llm_answer", .str r.llm_answer),
        ("query_id", .str r.query_id)]

/-- FastAPI serializes the handler's return value through
`response_model=QueryResponse`, whose only fields are `experts` and
`llm_answer`: every other key of the returned dict is dropped. -/
def queryResponseJson (r : RawQueryResult) : JVal :=
  .obj [("experts", .arr (r.experts.map serializeExpert)),
        ("llm_answer", .str r.llm_answer)]

/-- The `POST /query` endpoint as the client sees it: the handler result
filtered through the declared response model. -/
def processQueryEndpoint (st : SysState) (query : String)
    (chroma : Except Unit (List ExpertResponse))
    (llmCall : Except Unit String)
    (freshId : String) (db : Except String Unit) :
    SysState × Except HTTPError JVal :=
  let r := processQuery st query chroma llmCall freshId db
  (r.1, r.2.map queryResponseJson)

/-- The registry invariant: no query id is mapped to an empty subscriber set. -/
def RegInv (reg : Registry) : Prop := ∀ p ∈ reg, p.2 ≠ []

/-- A sample expert record, for concrete instantiations. -/
def e1 : ExpertResponse := ⟨"e1", "Alice", "Water purification", "field engineer", 9⟩

/-- A sample stored query with one assigned expert and no responses yet. -/
def uq1 : UserQuery := ⟨"q1", "who knows water purification", [e1], "boil it", []⟩

/-- The empty process state. -/
def st0 : SysState := ⟨[], [], [], []⟩

/-- A state holding `uq1` with one live subscriber (connection 7) on it. -/
def stq : SysState := ⟨[("q1", uq1)], [("q1", [7])], [], []⟩

/-! ### Helper lemmas on the dict operations -/

theorem dictGet_dictReplace_self {α : Type} (db : List (String × α))
    (k : String) (v v0 : α) (h : dictGet db k = some v0) :
    dictGet (dictReplace db k v) k = some v := by
  induction db with
  | nil => simp [dictGet] at h
  | cons p rest ih =>
    by_cases hk : p.1 = k
    · simp [dictGet, dictReplace, hk]
    · simp only [dictGet, dictReplace, if_neg hk] at h ⊢
      exact ih h

theorem dictGet_dictRemove_self {α : Type} (db : List (String × α))
    (k : String) : dictGet (dictRemove db k) k = none := by
  induction db with
  | nil => simp [dictGet, dictRemove]
  | cons p rest ih =>
    by_cases hk : p.1 = k
    · simpa [dictRemove, hk] using ih
    · simpa [dictRemove, hk, dictGet] using ih

theorem dictGet_dictInsert_self {α : Type} (db : List (String × α))
    (k : String) (v : α) : dictGet (dictInsert db k v) k = some v := by
  unfold dictInsert
  cases h : dictGet db k with
  | none =>
    induction db with
    | nil => simp [dictGet]
    | cons p rest ih =>
      by_cases hk : p.1 = k
      · simp [dictGet, hk] at h
      · simp only [dictGet, if_neg hk] at h
        simpa [dictGet, hk] using ih h
  | some v0 => exact dictGet_dictReplace_self db k v v0 h

theorem dictGet_mem {α : Type} (db : List (String × α)) (k : String) (v : α)
    (h : dictGet db k = some v) : (k, v) ∈ db := by
  induction db with
  | nil => simp [dictGet] at h
  | cons p rest ih =>
    by_cases hk : p.1 = k
    · simp only [dictGet, if_pos hk] at h
      obtain ⟨a, b⟩ := p
      obtain rfl : a = k := hk
      obtain rfl : b = v := Option.some.inj h
      exact List.mem_cons_self _ _
    · simp only [dictGet, if_neg hk] at h
      exact List.mem_cons_of_mem _ (ih h)

theorem mem_dictReplace {α : Type} {db : List (String × α)} {k : String}
    {v : α} {q : String × α} (h : q ∈ dictReplace db k v) :
    q = (k, v) ∨ q ∈ db := by
  induction db with
  | nil => simp [dictReplace] at h
  | cons p rest ih =>
    simp only [dictReplace, List.mem_cons] at h
    rcases h with h | h
    · by_cases hk : p.1 = k
      · simp [hk] at h; exact Or.inl h
      · simp [hk] at h; exact Or.inr (by simp [h])
    · rcases ih h with h | h
      · exact Or.inl h
      · exact Or.inr (List.mem_cons_of_mem _ h)

theorem mem_dictRemove {α : Type} {db : List (String × α)} {k : String}
    {q : String × α} (h : q ∈ dictRemove db k) : q ∈ db := by
  induction db with
  | nil => simp [dictRemove] at h
  | cons p rest ih =>
    by_cases hk : p.1 = k
    · simp only [dictRemove, if_pos hk] at h
      exact List.mem_cons_of_mem _ (ih h)
    · simp only [dictRemove, if_neg hk, List.mem_cons] at h
      rcases h with h | h
      · exact h ▸ List.mem_cons_self _ _
      · exact List.mem_cons_of_mem _ (ih h)

/-! ### Helper lemmas on the Broadcast Registry -/

theorem not_mem_subscribersOf_disconnect (reg : Registry) (query_id : String)
    (ws : Nat) : ws ∉ subscribersOf (ConnectionManager.disconnect reg query_id ws) query_id := by
  unfold ConnectionManager.disconnect
  cases h : dictGet reg query_id with
  | none => simp [subscribersOf, h]
  | some s =>
    by_cases he : s.filter (fun x => x != ws) = []
    · simp only [he, if_pos rfl]
      simp [subscribersOf, dictGet_dictRemove_self]
    · simp only [if_neg he]
      have := dictGet_dictReplace_self reg query_id
        (s.filter (fun x => x != ws)) s h
      simp only [subscribersOf, this, Option.getD_some]
      simp [List.mem_filter]

theorem subscribersOf_disconnect_subset (reg : Registry) (query_id : String)
    (ws c : Nat)
    (h : c ∈ subscribersOf (ConnectionManager.disconnect reg query_id ws) query_id) :
    c ∈ subscribersOf reg query_id := by
  unfold ConnectionManager.disconnect at h
  cases hg : dictGet reg query_id with
  | none => simpa [hg] using h
  | some s =>
    rw [hg] at h
    by_cases he : s.filter (fun x => x != ws) = []
    · simp only [he, if_pos rfl] at h
      simp [subscribersOf, dictGet_dictRemove_self] at h
    · simp only [if_neg he] at h
      have := dictGet_dictReplace_self reg query_id
        (s.filter (fun x => x != ws)) s hg
      simp only [subscribersOf, this, Option.getD_some] at h
      simp only [subscribersOf, hg, Option.getD_some]
      exact (List.mem_filter.mp h).1

theorem broadcastLoop_delivered (reg : Registry) (query_id : String)
    (alive : Nat → Bool) (cs : List Nat) :
    (ConnectionManager.broadcastLoop reg query_id alive cs).2 = cs.filter alive := by
  induction cs generalizing reg with
  | nil => rfl
  | cons c rest ih =>
    by_cases ha : alive c
    · simp [ConnectionManager.broadcastLoop, ha, ih]
    · simp only [Bool.not_eq_true] at ha
      simp [ConnectionManager.broadcastLoop, ha, ih]

theorem subscribersOf_broadcastLoop_subset (query_id : String)
    (alive : Nat → Bool) (cs : List Nat) (reg : Registry) (c : Nat)
    (h : c ∈ subscribersOf (ConnectionManager.broadcastLoop reg query_id alive cs).1 query_id) :
    c ∈ subscribersOf reg query_id := by
  induction cs generalizing reg with
  | nil => simpa [ConnectionManager.broadcastLoop] using h
  | cons d rest ih =>
    by_cases ha : alive d
    · simp only [ConnectionManager.broadcastLoop, if_pos ha] at h
      exact ih reg h
    · simp only [ConnectionManager.broadcastLoop, if_neg ha] at h
      exact subscribersOf_disconnect_subset reg query_id d c (ih _ h)

theorem broadcastLoop_removes_dead (query_id : String) (alive : Nat → Bool)
    (cs : List Nat) (reg : Registry) (c : Nat) (hc : c ∈ cs)
    (hd : alive c = false) :
    c ∉ subscribersOf (ConnectionManager.broadcastLoop reg query_id alive cs).1 query_id := by
  induction cs generalizing reg with
  | nil => simp at hc
  | cons d rest ih =>
    rcases List.mem_cons.mp hc with rfl | hc
    · simp only [ConnectionManager.broadcastLoop, hd, Bool.false_eq_true,
        if_false]
      intro hmem
      exact not_mem_subscribersOf_disconnect reg query_id c
        (subscribersOf_broadcastLoop_subset query_id alive rest _ c hmem)
    · by_cases ha : alive d
      · simp only [ConnectionManager.broadcastLoop, if_pos ha]
        exact ih reg hc
      · simp only [ConnectionManager.broadcastLoop, if_neg ha]
        exact ih _ hc

theorem RegInv_dictReplace {reg : Registry} {k : String} {v : List Nat}
    (h : RegInv reg) (hv : v ≠ []) : RegInv (dictReplace reg k v) := by
  intro p hp
  rcases mem_dictReplace hp with rfl | hp
  · exact hv
  · exact h p hp

theorem RegInv_dictRemove {reg : Registry} {k : String} (h : RegInv reg) :
    RegInv (dictRemove reg k) :=
  fun p hp => h p (mem_dictRemove hp)

theorem RegInv_disconnect {reg : Registry} (query_id : String) (ws : Nat)
    (h : RegInv reg) : RegInv (ConnectionManager.disconnect reg query_id ws) := by
  unfold ConnectionManager.disconnect
  cases hg : dictGet reg query_id with
  | none => exact h
  | some s =>
    by_cases he : s.filter (fun x => x != ws) = []
    · simpa [he] using RegInv_dictRemove h
    · simpa [he] using RegInv_dictReplace h he

theorem RegInv_connect {reg : Registry} (query_id : String) (ws : Nat)
    (h : RegInv reg) : RegInv (ConnectionManager.connect reg query_id ws) := by
  unfold ConnectionManager.connect
  cases hg : dictGet reg query_id with
  | none =>
    intro p hp
    rcases List.mem_append.mp hp with hp | hp
    · exact h p hp
    · simp only [List.mem_singleton] at hp
      simp [hp]
  | some s =>
    apply RegInv_dictReplace h
    by_cases hws : ws ∈ s
    · simp only [if_pos hws]
      exact h _ (dictGet_mem reg query_id s hg)
    · simp [hws]

theorem RegInv_broadcastLoop (query_id : String) (alive : Nat → Bool)
    (cs : List Nat) (reg : Registry) (h : RegInv reg) :
    RegInv (ConnectionManager.broadcastLoop reg query_id alive cs).1 := by
  induction cs generalizing reg with
  | nil => exact h
  | cons d rest ih =>
    by_cases ha : alive d
    · simp only [ConnectionManager.broadcastLoop, if_pos ha]
      exact ih reg h
    · simp only [ConnectionManager.broadcastLoop, if_neg ha]
      exact ih _ (RegInv_disconnect query_id d h)

/-! ### Helper lemmas on the Query Service -/

theorem submitExpertResponse_queries_db (st : SysState) (query_id : String)
    (req : SubmitExpertResponseRequest) (now : String) (db : Except String Unit)
    (alive : Nat → Bool) (q : UserQuery)
    (h : dictGet st.queries_db query_id = some q) :
    (submitExpertResponse st query_id req now db alive).state.queries_db
      = dictReplace st.queries_db query_id
          { q with expert_responses := q.expert_responses ++ [mkRespObj req now] } := by
  unfold submitExpertResponse
  rw [h]
  cases db <;> rfl

theorem dictGet_submitExpertResponse (st : SysState) (query_id : String)
    (req : SubmitExpertResponseRequest) (now : String) (db : Except String Unit)
    (alive : Nat → Bool) (q : UserQuery)
    (h : dictGet st.queries_db query_id = some q) :
    dictGet (submitExpertResponse st query_id req now db alive).state.queries_db query_id
      = some { q with expert_responses := q.expert_responses ++ [mkRespObj req now] } := by
  rw [submitExpertResponse_queries_db st query_id req now db alive q h]
  exact dictGet_dictReplace_self st.queries_db query_id _ q h

theorem submitMany_dictGet (query_id : String) (db : Except String Unit)
    (alive : Nat → Bool) (calls : List (SubmitExpertResponseRequest × String)) :
    ∀ (st : SysState) (q : UserQuery),
      dictGet st.queries_db query_id = some q →
      dictGet (submitMany st query_id calls db alive).queries_db query_id
        = some { q with expert_responses :=
            q.expert_responses ++ calls.map (fun p => mkRespObj p.1 p.2) } := by
  induction calls with
  | nil =>
    intro st q h
    simpa [submitMany] using h
  | cons p rest ih =>
    intro st q h
    obtain ⟨r, t⟩ := p
    have h1 := dictGet_submitExpertResponse st query_id r t db alive q h
    have h2 := ih _ _ h1
    simp only [submitMany]
    rw [h2]
    simp [List.append_assoc]

/-! ### Claim theorems -/

/-- Claim C6: `broadcast(query_id, message)` is a silent no-op when the id has
no registered subscribers; when it has, every subscriber whose send succeeds
receives the message (delivery to others proceeds past a failing subscriber),
a failing subscriber is removed from the registry, and the call itself never
fails. -/
theorem C6_broadcast_noop_and_fault_isolation (reg : Registry)
    (query_id : String) (alive : Nat → Bool) :
    (dictGet reg query_id = none →
      ConnectionManager.broadcast reg query_id alive = (reg, [])) ∧
    (∀ s, dictGet reg query_id = some s →
      (ConnectionManager.broadcast reg query_id alive).2 = s.filter alive ∧
      ∀ c ∈ s, alive c = false →
        c ∉ subscribersOf (ConnectionManager.broadcast reg query_id alive).1 query_id) := by
  constructor
  · intro h
    simp [ConnectionManager.broadcast, h]
  · intro s hs
    constructor
    · simp [ConnectionManager.broadcast, hs, broadcastLoop_delivered]
    · intro c hc hd
      simp only [ConnectionManager.broadcast, hs]
      exact broadcastLoop_removes_dead query_id alive s reg c hc hd

/-- Witness for C6: a registry with subscribers 1 and 2 on id `a`; id `b` has
none, so broadcasting to `b` changes nothing; broadcasting to `a` while only
connection 1 is alive delivers to 1 and removes 2. -/
theorem C6_broadcast_noop_and_fault_isolation_witness :
    ConnectionManager.broadcast [("a", [1, 2])] "b" (fun c => c == 1)
      = ([("a", [1, 2])], []) ∧
    (ConnectionManager.broadcast [("a", [1, 2])] "a" (fun c => c == 1)).2 = [1] ∧
    2 ∉ subscribersOf
      (ConnectionManager.broadcast [("a", [1, 2])] "a" (fun c => c == 1)).1 "a" :=
  ⟨(C6_broadcast_noop_and_fault_isolation [("a", [1, 2])] "b" (fun c => c == 1)).1
      (by decide),
   ((C6_broadcast_noop_and_fault_isolation [("a", [1, 2])] "a" (fun c => c == 1)).2
      [1, 2] (by decide)).1.trans (by decide),
   ((C6_broadcast_noop_and_fault_isolation [("a", [1, 2])] "a" (fun c => c == 1)).2
      [1, 2] (by decide)).2 2 (by decide) (by decide)⟩

/-- Claim C7: the Broadcast Registry never maps a query id to an empty
subscriber set; the invariant is preserved by connect, disconnect and
broadcast (removing an id's last subscriber deletes the id's entry). -/
theorem C7_no_empty_subscriber_set (reg : Registry) (query_id : String)
    (ws : Nat) (alive : Nat → Bool) (h : RegInv reg) :
    RegInv (ConnectionManager.connect reg query_id ws) ∧
    RegInv (ConnectionManager.disconnect reg query_id ws) ∧
    RegInv (ConnectionManager.broadcast reg query_id alive).1 := by
  refine ⟨RegInv_connect query_id ws h, RegInv_disconnect query_id ws h, ?_⟩
  cases hg : dictGet reg query_id with
  | none => simpa [ConnectionManager.broadcast, hg] using h
  | some s =>
    simpa [ConnectionManager.broadcast, hg] using
      RegInv_broadcastLoop query_id alive s reg h

/-- Witness for C7 at a concrete one-entry registry: connecting a second
subscriber, disconnecting the only subscriber, and broadcasting while every
send fails all preserve the invariant. -/
theorem C7_no_empty_subscriber_set_witness :
    RegInv ([("a", [1])] : Registry) ∧
    (RegInv (ConnectionManager.connect [("a", [1])] "a" 2) ∧
     RegInv (ConnectionManager.disconnect [("a", [1])] "a" 2) ∧
     RegInv (ConnectionManager.broadcast [("a", [1])] "a" (fun _ => false)).1) :=
  ⟨by unfold RegInv; decide,
   C7_no_empty_subscriber_set [("a", [1])] "a" 2 (fun _ => false)
     (by unfold RegInv; decide)⟩

/-- Claim C8: a query's assigned-experts snapshot is never mutated and its
expert-responses sequence only grows by appending: N sequential
`submit_expert_response` calls yield `get_query(id).expert_responses` equal to
the previous sequence extended by the N responses in call order (length grows
by exactly N; nothing is reordered or deduplicated). -/
theorem C8_responses_append_only_in_call_order (st : SysState)
    (query_id : String) (q : UserQuery)
    (calls : List (SubmitExpertResponseRequest × String))
    (db : Except String Unit) (alive : Nat → Bool)
    (h : dictGet st.queries_db query_id = some q) :
    getQuery (submitMany st query_id calls db alive) query_id
      = .ok { q with expert_responses :=
          q.expert_responses ++ calls.map (fun p => mkRespObj p.1 p.2) } ∧
    ({ q with expert_responses :=
        q.expert_responses ++ calls.map (fun p => mkRespObj p.1 p.2) }
       : UserQuery).assigned_experts = q.assigned_experts ∧
    (q.expert_responses ++ calls.map (fun p => mkRespObj p.1 p.2)).length
      = q.expert_responses.length + calls.length := by
  refine ⟨?_, rfl, by simp⟩
  unfold getQuery
  rw [submitMany_dictGet query_id db alive calls st q h]

/-- Witness for C8: two sequential expert submissions on the stored query
`q1` end with exactly those two responses, in call order, and an unchanged
assigned-experts list. -/
theorem C8_responses_append_only_in_call_order_witness :
    dictGet stq.queries_db "q1" = some uq1 ∧
    getQuery
        (submitMany stq "q1"
          [(⟨"e1", "Alice", "first"⟩, "t1"), (⟨"e9", "Maya", "second"⟩, "t2")]
          (.ok ()) (fun _ => true)) "q1"
      = .ok { uq1 with expert_responses :=
          uq1.expert_responses ++
            [⟨"e1", "Alice", "first", "t1"⟩, ⟨"e9", "Maya", "second", "t2"⟩] } :=
  ⟨by decide,
   by
    have h := (C8_responses_append_only_in_call_order stq "q1" uq1
      [(⟨"e1", "Alice", "first"⟩, "t1"), (⟨"e9", "Maya", "second"⟩, "t2")]
      (.ok ()) (fun _ => true) (by decide)).1
    simpa [mkRespObj] using h⟩

/-- Claim C9: `clear_all` empties the in-memory Query Store and changes
nothing else: afterwards `get_query` fails with 404 for every id, while the
Durable Store rows (and the Broadcast Registry) are untouched. -/
theorem C9_clear_all_memory_only (st : SysState) (query_id : String) :
    getQuery (clearAllQueries st).1 query_id = .error ⟨404, "Query not found"⟩ ∧
    (clearAllQueries st).1.queries_db = [] ∧
    (clearAllQueries st).1.pg_queries = st.pg_queries ∧
    (clearAllQueries st).1.pg_answers = st.pg_answers ∧
    (clearAllQueries st).1.registry = st.registry :=
  ⟨rfl, rfl, rfl, rfl, rfl⟩

/-- Claim C10: `submit_expert_response` performs no check that the submitted
`expert_id` belongs to the query's assigned-experts snapshot: even when it
does not, the call succeeds, appends the response, and reaches the
broadcast exactly like an assigned expert's submission. -/
theorem C10_no_assigned_expert_check (st : SysState) (query_id : String)
    (q : UserQuery) (req : SubmitExpertResponseRequest) (now : String)
    (alive : Nat → Bool)
    (h : dictGet st.queries_db query_id = some q)
    (_hnot : req.expert_id ∉ q.assigned_experts.map ExpertResponse.id) :
    (submitExpertResponse st query_id req now (.ok ()) alive).http
        = .ok "Expert response submitted." ∧
    (submitExpertResponse st query_id req now (.ok ()) alive).broadcastInvoked
        = true ∧
    dictGet (submitExpertResponse st query_id req now (.ok ()) alive).state.queries_db
        query_id
      = some { q with expert_responses :=
          q.expert_responses ++ [mkRespObj req now] } := by
  refine ⟨?_, ?_, dictGet_submitExpertResponse st query_id req now (.ok ()) alive q h⟩
  · unfold submitExpertResponse
    rw [h]
  · unfold submitExpertResponse
    rw [h]

/-- Witness for C10: a response from expert id `ghost`, which is not among
`q1`'s assigned experts, is accepted, appended and broadcast. -/
theorem C10_no_assigned_expert_check_witness :
    dictGet stq.queries_db "q1" = some uq1 ∧
    ("ghost" ∉ uq1.assigned_experts.map ExpertResponse.id) ∧
    ((submitExpertResponse stq "q1" ⟨"ghost", "Nobody", "hi"⟩ "t1" (.ok ())
        (fun _ => true)).http = .ok "Expert response submitted." ∧
     (submitExpertResponse stq "q1" ⟨"ghost", "Nobody", "hi"⟩ "t1" (.ok ())
        (fun _ => true)).broadcastInvoked = true ∧
     dictGet (submitExpertResponse stq "q1" ⟨"ghost", "Nobody", "hi"⟩ "t1"
        (.ok ()) (fun _ => true)).state.queries_db "q1"
       = some { uq1 with expert_responses :=
           uq1.expert_responses ++ [mkRespObj ⟨"ghost", "Nobody", "hi"⟩ "t1"] }) :=
  ⟨by decide, by decide,
   C10_no_assigned_expert_check stq "q1" uq1 ⟨"ghost", "Nobody", "hi"⟩ "t1"
     (fun _ => true) (by decide) (by decide)⟩

/-- Counterexample to claim C1: on a known query id with a live subscriber,
a failing durable mirror makes `submit_expert_response` raise its 500 before
the broadcast line, so the broadcast is NOT invoked and nothing is delivered —
the in-memory append does survive. -/
theorem C1_counterexample_no_broadcast_on_mirror_failure :
    (submitExpertResponse stq "q1" ⟨"e1", "Alice", "try boiling"⟩ "t0"
        (.error "connection refused") (fun _ => true)).broadcastInvoked = false ∧
    (submitExpertResponse stq "q1" ⟨"e1", "Alice", "try boiling"⟩ "t0"
        (.error "connection refused") (fun _ => true)).delivered = [] ∧
    (submitExpertResponse stq "q1" ⟨"e1", "Alice", "try boiling"⟩ "t0"
        (.error "connection refused") (fun _ => true)).http
      = .error ⟨500, "Postgres error: connection refused"⟩ ∧
    subscribersOf stq.registry "q1" = [7] :=
  ⟨rfl, rfl, rfl, rfl⟩

/-- Claim C1 as amended: on a known query id the in-memory append always
happens, but the broadcast is invoked exactly when the durable mirror
succeeds; a mirror failure is fatal for the rest of the operation (500
PersistenceError, no broadcast), with the append retained. -/
theorem C1_broadcast_only_after_mirror_success (st : SysState)
    (query_id : String) (q : UserQuery) (req : SubmitExpertResponseRequest)
    (now : String) (alive : Nat → Bool) (m : String)
    (h : dictGet st.queries_db query_id = some q) :
    (submitExpertResponse st query_id req now (.ok ()) alive).broadcastInvoked
        = true ∧
    (submitExpertResponse st query_id req now (.error m) alive).broadcastInvoked
        = false ∧
    (submitExpertResponse st query_id req now (.error m) alive).http
      = .error ⟨500, "Postgres error: " ++ m⟩ ∧
    dictGet (submitExpertResponse st query_id req now (.error m) alive).state.queries_db
        query_id
      = some { q with expert_responses :=
          q.expert_responses ++ [mkRespObj req now] } := by
  refine ⟨?_, ?_, ?_,
    dictGet_submitExpertResponse st query_id req now (.error m) alive q h⟩
  · unfold submitExpertResponse
    rw [h]
  · unfold submitExpertResponse
    rw [h]
  · unfold submitExpertResponse
    rw [h]

/-- Witness for the amended C1 on the concrete state `stq`. -/
theorem C1_broadcast_only_after_mirror_success_witness :
    dictGet stq.queries_db "q1" = some uq1 ∧
    ((submitExpertResponse stq "q1" ⟨"e1", "Alice", "try boiling"⟩ "t0" (.ok ())
        (fun _ => true)).broadcastInvoked = true ∧
     (submitExpertResponse stq "q1" ⟨"e1", "Alice", "try boiling"⟩ "t0"
        (.error "down") (fun _ => true)).broadcastInvoked = false ∧
     (submitExpertResponse stq "q1" ⟨"e1", "Alice", "try boiling"⟩ "t0"
        (.error "down") (fun _ => true)).http
       = .error ⟨500, "Postgres error: down"⟩ ∧
     dictGet (submitExpertResponse stq "q1" ⟨"e1", "Alice", "try boiling"⟩ "t0"
        (.error "down") (fun _ => true)).state.queries_db "q1"
       = some { uq1 with expert_responses :=
           uq1.expert_responses ++ [mkRespObj ⟨"e1", "Alice", "try boiling"⟩ "t0"] }) :=
  ⟨by decide,
   C1_broadcast_only_after_mirror_success stq "q1" uq1 ⟨"e1", "Alice", "try boiling"⟩
     "t0" (fun _ => true) "down" (by decide)⟩

/-- Counterexample to claim C2: a failing catalog call and a catalog that
returns zero experts produce literally the same outcome (the wrapper swallowed
the error into an empty list), and that outcome is a 500, not a 404 (the 404
raised inside the handler is caught by its own catch-all and re-raised as
500) — the two cases are not distinguishable and no NotFound escapes. -/
theorem C2_counterexample_catalog_error_indistinguishable :
    processQuery st0 "who knows water purification" (.error ()) (.ok "boil it")
        "q1" (.ok ())
      = processQuery st0 "who knows water purification" (.ok []) (.ok "boil it")
        "q1" (.ok ()) ∧
    (processQuery st0 "who knows water purification" (.ok []) (.ok "boil it")
        "q1" (.ok ())).2
      = .error ⟨500, "Error processing query: 404: No experts found in database"⟩ :=
  ⟨rfl, rfl⟩

/-- Claim C2 as amended: when the catalog returns zero experts, `submit_query`
fails with a 500 whose detail wraps the internal 404 text; a catalog call
error is swallowed by `search_similar_experts` into the empty list, so for
every question and every other input it yields the identical response — the
caller cannot distinguish the two, and the store is left unchanged. -/
theorem C2_empty_catalog_and_catalog_error_same_500 (st : SysState)
    (query : String) (llmCall : Except Unit String) (freshId : String)
    (db : Except String Unit) :
    processQuery st query (.error ()) llmCall freshId db
      = processQuery st query (.ok []) llmCall freshId db ∧
    (processQuery st query (.ok []) llmCall freshId db).1 = st ∧
    (processQuery st query (.ok []) llmCall freshId db).2
      = .error ⟨500, "Error processing query: 404: No experts found in database"⟩ :=
  ⟨rfl, rfl, rfl⟩

/-- Claim C3: when the Answer Generator call fails (its wrapper returns
Python `None`), `submit_query` fails with a 500 — the `UserQuery` model
rejects `llm_answer=None`, the handler's catch-all re-raises it — and the
state is completely unchanged: no Query record with an empty or missing
answer is ever created, and no answer is returned. -/
theorem C3_generator_failure_propagates_no_empty_answer (st : SysState)
    (query : String) (chroma : Except Unit (List ExpertResponse))
    (freshId : String) (db : Except String Unit)
    (h : ChromaService.search_similar_experts chroma ≠ []) :
    processQuery st query chroma (.error ()) freshId db
      = (st, .error (wrapOuter pydanticNoneMsg)) ∧
    (wrapOuter pydanticNoneMsg).status_code = 500 := by
  refine ⟨?_, rfl⟩
  simp [processQuery, LLMService.get_answer, if_neg h]

/-- Witness for C3: a nonempty catalog result, a failed generator call. -/
theorem C3_generator_failure_propagates_no_empty_answer_witness :
    ChromaService.search_similar_experts (.ok [e1]) ≠ [] ∧
    (processQuery st0 "who knows water purification" (.ok [e1]) (.error ())
        "q1" (.ok ())
      = (st0, .error (wrapOuter pydanticNoneMsg)) ∧
     (wrapOuter pydanticNoneMsg).status_code = 500) :=
  ⟨by decide,
   C3_generator_failure_propagates_no_empty_answer st0
     "who knows water purification" (.ok [e1]) "q1" (.ok ()) (by decide)⟩

/-- Claim C4, evaluated at a failing input: a fully successful `POST /query`.
The handler's raw dict does carry `query_id`, but the declared
`response_model=QueryResponse` keeps only `experts` and `llm_answer`, so the
response serialized to the client has no `query_id` key — contradicting the
claim that every successful response contains the fresh query id. -/
theorem C4_query_id_stripped_by_response_model :
    (processQueryEndpoint st0 "who knows water purification" (.ok [e1])
        (.ok "boil it") "q1" (.ok ())).2.toOption.map objKeys
      = some ["experts", "llm_answer"] ∧
    "query_id" ∉ (["experts", "llm_answer"] : List String) ∧
    objKeys (rawHandlerJson ⟨[e1], "boil it", "q1"⟩)
      = ["experts", "llm_answer", "query_id"] :=
  ⟨rfl, by decide, rfl⟩

/-- Counterexample to claim C5: the empty question is not rejected — with a
nonempty catalog result, a generated answer and a successful mirror, the call
succeeds and a Query record with the empty question text is created. -/
theorem C5_counterexample_empty_question_accepted :
    (processQuery st0 "" (.ok [e1]) (.ok "boil it") "q1" (.ok ())).2
      = .ok ⟨[e1], "boil it".trim, "q1"⟩ ∧
    dictGet (processQuery st0 "" (.ok [e1]) (.ok "boil it") "q1" (.ok ())).1.queries_db
        "q1"
      = some ⟨"q1", "", [e1], "boil it".trim, []⟩ :=
  ⟨rfl, rfl⟩

/-- Claim C5 as amended: `submit_query` performs no non-emptiness validation
on the question — `QueryRequest.query` is an unconstrained string — so the
empty question is processed exactly like any other: whenever the catalog
result is nonempty and the generator and mirror succeed, the call succeeds
and creates a Query record whose question is the empty string; no
ValidationError / 4xx is produced. -/
theorem C5_empty_question_not_validated (st : SysState)
    (chroma : Except Unit (List ExpertResponse)) (content freshId : String)
    (h : ChromaService.search_similar_experts chroma ≠ []) :
    (processQuery st "" chroma (.ok content) freshId (.ok ())).2
      = .ok ⟨ChromaService.search_similar_experts chroma, content.trim, freshId⟩ ∧
    dictGet (processQuery st "" chroma (.ok content) freshId (.ok ())).1.queries_db
        freshId
      = some ⟨freshId, "", ChromaService.search_similar_experts chroma,
          content.trim, []⟩ := by
  constructor
  · simp [processQuery, LLMService.get_answer, if_neg h]
  · simp [processQuery, LLMService.get_answer, if_neg h, dictGet_dictInsert_self]

/-- Witness for the amended C5. -/
theorem C5_empty_question_not_validated_witness :
    ChromaService.search_similar_experts (.ok [e1]) ≠ [] ∧
    ((processQuery st0 "" (.ok [e1]) (.ok "boil it") "q2" (.ok ())).2
      = .ok ⟨ChromaService.search_similar_experts (.ok [e1]),
          "boil it".trim, "q2"⟩ ∧
     dictGet (processQuery st0 "" (.ok [e1]) (.ok "boil it") "q2"
        (.ok ())).1.queries_db "q2"
       = some ⟨"q2", "", ChromaService.search_similar_experts (.ok [e1]),
           "boil it".trim, []⟩) :=
  ⟨by decide,
   C5_empty_question_not_validated st0 (.ok [e1]) "boil it" "q2" (by decide)⟩
